import Mathlib

/-!
Verification development for the BookFiler HTTP cookie core
(`src/core/httpCookie.hpp`).

The repository ships only the class declaration and its doc comments; the
bodies of `escape`, `unescape`, `toString`, the constructors and the setters
are not part of the sources.  Following the specification document, the
missing bodies are modelled here from the spec's words (each such definition
says so in its doc comment).  Byte strings are modelled as `List Nat` with
every element below 256; cookie records are a Lean structure mirroring the
private fields of `CookieImpl`.
-/

namespace Cookie

/-- Modelled from the spec: the body of `CookieImpl::escape` is missing from
the sources.  The fixed forbidden set of §4.2: the listed punctuation bytes
(`% < > { } [ ] ( ) / | \ " ' ^ `` ` `` , ;`), every byte ≤ 0x20, and 0x7F
together with the above-ASCII range. -/
def forbidden (b : Nat) : Bool :=
  b ≤ 0x20 || 0x7F ≤ b ||
  [0x25, 0x3C, 0x3E, 0x7B, 0x7D, 0x5B, 0x5D, 0x28, 0x29, 0x2F, 0x7C,
   0x5C, 0x22, 0x27, 0x5E, 0x60, 0x2C, 0x3B].contains b

/-- Uppercase hexadecimal digit (as a byte) for a nibble value. -/
def hexDigit (n : Nat) : Nat :=
  if n < 10 then 48 + n else 55 + n

/-- Modelled from the spec: the body of `CookieImpl::escape` is missing from
the sources.  §4.2: each forbidden byte is replaced by `%` followed by its
two-digit uppercase hexadecimal value; every other byte passes through. -/
def escape : List Nat → List Nat
  | [] => []
  | b :: rest =>
    (if forbidden b then [0x25, hexDigit (b / 16), hexDigit (b % 16)] else [b])
      ++ escape rest

/-- Is the byte an ASCII hexadecimal digit (`0-9`, `A-F`, `a-f`)? -/
def isHexDigit (b : Nat) : Bool :=
  (48 ≤ b && b ≤ 57) || (65 ≤ b && b ≤ 70) || (97 ≤ b && b ≤ 102)

/-- Value of an ASCII hexadecimal digit byte. -/
def hexVal (b : Nat) : Nat :=
  if b ≤ 57 then b - 48 else if b ≤ 70 then b - 55 else b - 87

/-- Modelled from the spec: the body of `CookieImpl::unescape` is missing from
the sources.  §4.2: scan left to right; `%` followed by two hex digits decodes
to the corresponding byte (advancing three positions); a malformed escape
sequence copies the `%` literally and scanning continues; every other byte is
copied verbatim. -/
def unescape : List Nat → List Nat
  | [] => []
  | [b] => [b]
  | [b, d] => b :: unescape [d]
  | b :: d1 :: d2 :: rest' =>
    if b = 0x25 && isHexDigit d1 && isHexDigit d2 then
      (16 * hexVal d1 + hexVal d2) :: unescape rest'
    else
      b :: unescape (d1 :: d2 :: rest')

/-- The byte sequence of a textual literal (used for concrete scenarios). -/
def strBytes (s : String) : List Nat :=
  s.data.map Char.toNat

lemma isHexDigit_hexDigit {n : Nat} (h : n < 16) : isHexDigit (hexDigit n) = true := by
  interval_cases n <;> decide

lemma hexVal_hexDigit {n : Nat} (h : n < 16) : hexVal (hexDigit n) = n := by
  interval_cases n <;> decide

lemma forbidden_hexDigit {n : Nat} (h : n < 16) : forbidden (hexDigit n) = false := by
  interval_cases n <;> decide

lemma ne_percent_of_not_forbidden {b : Nat} (h : ¬ forbidden b = true) : b ≠ 0x25 := by
  intro e; subst e; exact h (by decide)

/-- A byte other than `%` is copied verbatim by `unescape`. -/
lemma unescape_cons_of_ne (b : Nat) (l : List Nat) (hb : b ≠ 0x25) :
    unescape (b :: l) = b :: unescape l := by
  match l with
  | [] => rfl
  | [d] => rfl
  | d1 :: d2 :: rest => simp [unescape, hb]

/-- A well-formed escape triple is decoded by `unescape`. -/
lemma unescape_cons_triple (d1 d2 : Nat) (l : List Nat)
    (h1 : isHexDigit d1 = true) (h2 : isHexDigit d2 = true) :
    unescape (0x25 :: d1 :: d2 :: l) = (16 * hexVal d1 + hexVal d2) :: unescape l := by
  simp [unescape, h1, h2]

/-- C1: for every byte sequence `s` (all elements below 256, including the
empty sequence and sequences holding reserved or control bytes),
`unescape (escape s) = s`. -/
theorem unescape_escape_id (s : List Nat) (h : ∀ b ∈ s, b < 256) :
    unescape (escape s) = s := by
  induction s with
  | nil => rfl
  | cons b rest ih =>
    have hb : b < 256 := h b (by simp)
    have hrest : ∀ x ∈ rest, x < 256 := fun x hx => h x (by simp [hx])
    by_cases hf : forbidden b = true
    · have hdiv : b / 16 < 16 := by omega
      have hmod : b % 16 < 16 := by omega
      have : escape (b :: rest)
          = 0x25 :: hexDigit (b / 16) :: hexDigit (b % 16) :: escape rest := by
        simp [escape, hf]
      rw [this, unescape_cons_triple _ _ _ (isHexDigit_hexDigit hdiv) (isHexDigit_hexDigit hmod),
        hexVal_hexDigit hdiv, hexVal_hexDigit hmod, ih hrest]
      congr 1
      omega
    · have : escape (b :: rest) = b :: escape rest := by simp [escape, hf]
      rw [this, unescape_cons_of_ne _ _ (ne_percent_of_not_forbidden hf), ih hrest]

/-- Witness for C1 at the concrete byte sequence of `"a b;c%<>"`. -/
theorem unescape_escape_id_witness :
    (∀ b ∈ strBytes "a b;c%<>", b < 256) ∧
      unescape (escape (strBytes "a b;c%<>")) = strBytes "a b;c%<>" :=
  ⟨by decide, unescape_escape_id (strBytes "a b;c%<>") (by decide)⟩

/-- C2: `escape` is total; on every input it replaces each forbidden byte by
`%` followed by the byte's two-digit uppercase hexadecimal value and passes
every other byte through unchanged; consequently no forbidden byte other than
the escape marker `%` itself appears in the output; and
`escape "a b;c" = "a%20b%3Bc"`. -/
theorem escape_forbidden_spec :
    (∀ (b : Nat) (s : List Nat),
        escape (b :: s)
          = (if forbidden b then [0x25, hexDigit (b / 16), hexDigit (b % 16)] else [b])
              ++ escape s)
    ∧ (∀ s : List Nat, (∀ b ∈ s, b < 256) →
        ∀ b ∈ escape s, forbidden b = true → b = 0x25)
    ∧ escape (strBytes "a b;c") = strBytes "a%20b%3Bc" := by
  refine ⟨fun b s => rfl, ?_, by decide⟩
  intro s hs b hmem hforb
  induction s with
  | nil => simp [escape] at hmem
  | cons c rest ih =>
    have hc : c < 256 := hs c (by simp)
    have hrest : ∀ x ∈ rest, x < 256 := fun x hx => hs x (by simp [hx])
    by_cases hf : forbidden c = true
    · have : escape (c :: rest)
          = 0x25 :: hexDigit (c / 16) :: hexDigit (c % 16) :: escape rest := by
        simp [escape, hf]
      rw [this] at hmem
      simp only [List.mem_cons] at hmem
      rcases hmem with h1 | h2 | h3 | h4
      · exact h1
      · subst h2
        rw [forbidden_hexDigit (by omega : c / 16 < 16)] at hforb
        exact absurd hforb (by simp)
      · subst h3
        rw [forbidden_hexDigit (by omega : c % 16 < 16)] at hforb
        exact absurd hforb (by simp)
      · exact ih hrest h4
    · have : escape (c :: rest) = c :: escape rest := by simp [escape, hf]
      rw [this] at hmem
      simp only [List.mem_cons] at hmem
      rcases hmem with h1 | h2
      · subst h1; exact absurd hforb hf
      · exact ih hrest h2

/-- Witness for C2 at the concrete byte sequence of `"a b;c"`. -/
theorem escape_forbidden_spec_witness :
    (∀ b ∈ strBytes "a b;c", b < 256) ∧
      (∀ b ∈ escape (strBytes "a b;c"), forbidden b = true → b = 0x25) :=
  ⟨by decide, escape_forbidden_spec.2.1 (strBytes "a b;c") (by decide)⟩

/-- C3: `unescape` is total and never fails: `%` followed by two hex digits is
decoded to the corresponding byte (advancing three positions); a malformed
escape sequence (trailing `%`, or `%` followed by fewer than two hex digits or
by non-hex bytes) copies the `%` literally; `unescape "100%" = "100%"`. -/
theorem unescape_total_spec :
    (∀ (d1 d2 : Nat) (rest : List Nat), isHexDigit d1 = true → isHexDigit d2 = true →
        unescape (0x25 :: d1 :: d2 :: rest)
          = (16 * hexVal d1 + hexVal d2) :: unescape rest)
    ∧ (∀ (d1 d2 : Nat) (rest : List Nat), ¬(isHexDigit d1 = true ∧ isHexDigit d2 = true) →
        unescape (0x25 :: d1 :: d2 :: rest) = 0x25 :: unescape (d1 :: d2 :: rest))
    ∧ unescape [0x25] = [0x25]
    ∧ (∀ d : Nat, unescape [0x25, d] = 0x25 :: unescape [d])
    ∧ (∀ (b : Nat) (rest : List Nat), b ≠ 0x25 →
        unescape (b :: rest) = b :: unescape rest)
    ∧ unescape (strBytes "100%") = strBytes "100%" := by
  refine ⟨unescape_cons_triple, ?_, rfl, fun d => rfl, unescape_cons_of_ne, by decide⟩
  intro d1 d2 rest h
  by_cases h1 : isHexDigit d1 = true
  · by_cases h2 : isHexDigit d2 = true
    · exact absurd ⟨h1, h2⟩ h
    · have h2f : isHexDigit d2 = false := by revert h2; cases isHexDigit d2 <;> simp
      simp [unescape, h2f]
  · have h1f : isHexDigit d1 = false := by revert h1; cases isHexDigit d1 <;> simp
    simp [unescape, h1f]

/-- Witness for C3: decodes `"%41"`, keeps `"%4g"` and `"ab"` literal. -/
theorem unescape_total_spec_witness :
    unescape [0x25, 0x34, 0x31] = [0x41]
      ∧ unescape [0x25, 0x34, 0x67] = 0x25 :: unescape [0x34, 0x67]
      ∧ unescape [0x61, 0x62] = 0x61 :: unescape [0x62] :=
  ⟨(unescape_total_spec.1 0x34 0x31 [] (by decide) (by decide)).trans (by decide),
    unescape_total_spec.2.1 0x34 0x67 [] (by decide),
    unescape_total_spec.2.2.2.2.1 0x61 [0x62] (by decide)⟩

/-- The SameSite attribute: a closed four-variant enumeration mirroring
`CookieImpl::SameSite`. -/
inductive SameSite where
  | notSpecified
  | none
  | lax
  | strict
  deriving DecidableEq

/-- The cookie data model, mirroring the private fields of `CookieImpl`
(`_version`, `_name`, `_value`, `_comment`, `_domain`, `_path`, `_priority`,
`_secure`, `_maxAge`, `_httpOnly`, `_sameSite`) with the defaults of §3. -/
structure CookieRecord where
  version : Int := 0
  name : String := ""
  value : String := ""
  comment : String := ""
  domain : String := ""
  path : String := ""
  priority : String := ""
  secure : Bool := false
  maxAge : Int := -1
  httpOnly : Bool := false
  sameSite : SameSite := SameSite.notSpecified

/-- Decimal digit characters of a natural number (fuel-based so that it is
structurally recursive and kernel-evaluable). -/
def natDecAux : Nat → Nat → List Char
  | 0, _ => []
  | fuel + 1, n =>
    if n < 10 then [Char.ofNat (48 + n)]
    else natDecAux fuel (n / 10) ++ [Char.ofNat (48 + n % 10)]

/-- Decimal rendering of a natural number. -/
def natDec (n : Nat) : String :=
  ⟨natDecAux (n + 1) n⟩

/-- Decimal rendering of an integer. -/
def intDec (n : Int) : String :=
  if n < 0 then "-" ++ natDec (-n).toNat else natDec n.toNat

/-- Two-digit zero-padded decimal rendering. -/
def pad2 (n : Nat) : String :=
  if n < 10 then "0" ++ natDec n else natDec n

/-- Modelled from the spec: the HTTP-date formatter used for the `Expires`
attribute is not part of the sources.  §6: format
`"%a, %d %b %Y %H:%M:%S GMT"` with English weekday/month abbreviations and a
fixed `GMT` suffix, applied to a time in seconds since the Unix epoch
(civil-from-days conversion in the proleptic Gregorian calendar). -/
def httpDate (t : Nat) : String :=
  let days := t / 86400
  let secs := t % 86400
  let z := days + 719468
  let era := z / 146097
  let doe := z % 146097
  let yoe := (doe - doe / 1460 + doe / 36524 - doe / 146096) / 365
  let y0 := yoe + era * 400
  let doy := doe - (365 * yoe + yoe / 4 - yoe / 100)
  let mp := (5 * doy + 2) / 153
  let d := doy - (153 * mp + 2) / 5 + 1
  let m := if mp < 10 then mp + 3 else mp - 9
  let y := if m ≤ 2 then y0 + 1 else y0
  let wdName := ["Sun", "Mon", "Tue", "Wed", "Thu", "Fri", "Sat"].getD ((days + 4) % 7) ""
  let mName := ["Jan", "Feb", "Mar", "Apr", "May", "Jun",
                "Jul", "Aug", "Sep", "Oct", "Nov", "Dec"].getD (m - 1) ""
  wdName ++ ", " ++ pad2 d ++ " " ++ mName ++ " " ++ natDec y ++ " " ++
    pad2 (secs / 3600) ++ ":" ++ pad2 (secs % 3600 / 60) ++ ":" ++ pad2 (secs % 60) ++ " GMT"

/-- Rendering of one header segment: `key=value` for valued attributes, the
bare key for the flags `Secure` and `HttpOnly`. -/
def renderSeg : String × Option String → String
  | (k, some v) => k ++ "=" ++ v
  | (k, none) => k

/-- The `SameSite` segment of §4.3 step 10: the exact capitalized literal for
the variant, nothing when not specified. -/
def sameSiteSegs : SameSite → List (String × Option String)
  | SameSite.notSpecified => []
  | SameSite.none => [("SameSite", some "None")]
  | SameSite.lax => [("SameSite", some "Lax")]
  | SameSite.strict => [("SameSite", some "Strict")]

/-- Modelled from the spec: the body of `CookieImpl::toString` is missing from
the sources.  §4.3 steps 2-10: the ordered optional attribute segments
(`$Version`, `Comment`, `Domain`, `Path`, `Priority`, `Secure`, `HttpOnly`,
`Max-Age`/`Expires`, `SameSite`), each a key paired with its optional value.
`now` is the clock reading (seconds since the Unix epoch) used for the
`Expires` attribute of step 9. -/
def attrPairs (r : CookieRecord) (now : Nat) : List (String × Option String) :=
  (if r.version = 1 then [("$Version", some "\x221\x22")] else [])
  ++ (if r.comment ≠ "" ∧ r.version = 1 then [("Comment", some r.comment)] else [])
  ++ (if r.domain ≠ "" then [("Domain", some r.domain)] else [])
  ++ (if r.path ≠ "" then [("Path", some r.path)] else [])
  ++ (if r.priority ≠ "" then [("Priority", some r.priority)] else [])
  ++ (if r.secure then [("Secure", Option.none)] else [])
  ++ (if r.httpOnly then [("HttpOnly", Option.none)] else [])
  ++ (if 0 ≤ r.maxAge then
        [("Max-Age", some (intDec r.maxAge)),
         ("Expires", some (httpDate (now + r.maxAge.toNat)))]
      else [])
  ++ sameSiteSegs r.sameSite

/-- Modelled from the spec: the body of `CookieImpl::toString` is missing from
the sources.  §4.3: `name=value` first, then the optional segments, joined by
`"; "`. -/
def serialize (r : CookieRecord) (now : Nat) : String :=
  String.intercalate "; " ((r.name ++ "=" ++ r.value) :: (attrPairs r now).map renderSeg)

/-- The error taxonomy of §7: `InvalidVersion` when a version outside {0,1}
is set. -/
inductive CookieError where
  | invalidVersion
  deriving DecidableEq

/-- Modelled from the spec: the body of `CookieImpl::setVersion` is missing
from the sources.  §4.1/§7: the only validating setter; a version outside
{0,1} is an invalid-argument failure surfaced to the caller. -/
def setVersion (v : Int) (r : CookieRecord) : Except CookieError CookieRecord :=
  if v = 0 ∨ v = 1 then Except.ok { r with version := v }
  else Except.error CookieError.invalidVersion

/-- Modelled from the spec: the setter bodies are missing from the sources.
§4.1: plain field assignment, no validation, no other effect. -/
def setName (s : String) (r : CookieRecord) : CookieRecord := { r with name := s }

/-- Modelled from the spec: plain field assignment (§4.1). -/
def setValue (s : String) (r : CookieRecord) : CookieRecord := { r with value := s }

/-- Modelled from the spec: plain field assignment (§4.1). -/
def setComment (s : String) (r : CookieRecord) : CookieRecord := { r with comment := s }

/-- Modelled from the spec: plain field assignment (§4.1). -/
def setDomain (s : String) (r : CookieRecord) : CookieRecord := { r with domain := s }

/-- Modelled from the spec: plain field assignment (§4.1). -/
def setPath (s : String) (r : CookieRecord) : CookieRecord := { r with path := s }

/-- Modelled from the spec: plain field assignment (§4.1). -/
def setPriority (s : String) (r : CookieRecord) : CookieRecord := { r with priority := s }

/-- Modelled from the spec: plain field assignment (§4.1). -/
def setSecure (b : Bool) (r : CookieRecord) : CookieRecord := { r with secure := b }

/-- Modelled from the spec: plain field assignment (§4.1); -1 session cookie,
0 delete instruction, positive values literal seconds (§3). -/
def setMaxAge (n : Int) (r : CookieRecord) : CookieRecord := { r with maxAge := n }

/-- Modelled from the spec: plain field assignment (§4.1). -/
def setHttpOnly (b : Bool) (r : CookieRecord) : CookieRecord := { r with httpOnly := b }

/-- Modelled from the spec: plain field assignment (§4.1). -/
def setSameSite (v : SameSite) (r : CookieRecord) : CookieRecord := { r with sameSite := v }

/-- Modelled from the spec: the default constructor body is missing from the
sources.  §3: every field takes its listed default (version 0, maxAge -1,
flags false, texts empty, SameSite not specified). -/
def mkCookie : CookieRecord := {}

/-- Modelled from the spec: construct from a name (§4.1). -/
def mkCookieNamed (n : String) : CookieRecord := { mkCookie with name := n }

/-- Modelled from the spec: construct from a name and a value (§4.1). -/
def mkCookieNameValue (n v : String) : CookieRecord :=
  { mkCookie with name := n, value := v }

/-- Modelled from the spec: the mapping constructor body is missing from the
sources.  §4.1/§9: best-effort field-by-field assignment for the recognized
attribute keys; unrecognized keys (and unusable values, such as an
out-of-range version) are silently ignored. -/
def applyAttr (r : CookieRecord) (p : String × String) : CookieRecord :=
  if p.1 = "Comment" then setComment p.2 r
  else if p.1 = "Domain" then setDomain p.2 r
  else if p.1 = "Path" then setPath p.2 r
  else if p.1 = "Priority" then setPriority p.2 r
  else if p.1 = "Secure" then setSecure true r
  else if p.1 = "HttpOnly" then setHttpOnly true r
  else if p.1 = "Max-Age" then
    match p.2.toInt? with
    | some n => setMaxAge n r
    | Option.none => r
  else if p.1 = "SameSite" then
    if p.2 = "None" then setSameSite SameSite.none r
    else if p.2 = "Lax" then setSameSite SameSite.lax r
    else if p.2 = "Strict" then setSameSite SameSite.strict r
    else r
  else if p.1 = "Version" then
    match setVersion ((p.2.toInt?).getD 0) r with
    | Except.ok r' => r'
    | Except.error _ => r
  else r

/-- Modelled from the spec: construct from a mapping of attribute-style
key/value text pairs (§4.1). -/
def fromMap (m : List (String × String)) : CookieRecord :=
  m.foldl applyAttr mkCookie

lemma mem_ite_nil {α : Type} {c : Prop} [Decidable c] {l : List α} {a : α} :
    a ∈ (if c then l else []) ↔ c ∧ a ∈ l := by
  split_ifs with h <;> simp [h]

/-- Complete characterization of the attribute segments emitted for a
record: exactly the optional segments of §4.3 steps 2-10, each present
under its stated condition. -/
lemma attrPairs_mem_iff (r : CookieRecord) (now : Nat) (p : String × Option String) :
    p ∈ attrPairs r now ↔
      (r.version = 1 ∧ p = ("$Version", some "\x221\x22"))
      ∨ (r.comment ≠ "" ∧ r.version = 1 ∧ p = ("Comment", some r.comment))
      ∨ (r.domain ≠ "" ∧ p = ("Domain", some r.domain))
      ∨ (r.path ≠ "" ∧ p = ("Path", some r.path))
      ∨ (r.priority ≠ "" ∧ p = ("Priority", some r.priority))
      ∨ (r.secure = true ∧ p = ("Secure", Option.none))
      ∨ (r.httpOnly = true ∧ p = ("HttpOnly", Option.none))
      ∨ (0 ≤ r.maxAge ∧
          (p = ("Max-Age", some (intDec r.maxAge))
            ∨ p = ("Expires", some (httpDate (now + r.maxAge.toNat)))))
      ∨ (r.sameSite = SameSite.none ∧ p = ("SameSite", some "None"))
      ∨ (r.sameSite = SameSite.lax ∧ p = ("SameSite", some "Lax"))
      ∨ (r.sameSite = SameSite.strict ∧ p = ("SameSite", some "Strict")) := by
  cases hss : r.sameSite <;>
    simp [attrPairs, List.mem_append, mem_ite_nil, sameSiteSegs, hss, and_assoc]

/-- The fixed order of attribute keys of §4.3 steps 2-10. -/
def attrKeyOrder : List String :=
  ["$Version", "Comment", "Domain", "Path", "Priority", "Secure",
   "HttpOnly", "Max-Age", "Expires", "SameSite"]

/-- The emitted attribute keys follow the fixed order (they form a sublist of
`attrKeyOrder`). -/
lemma attrPairs_keys_sublist (r : CookieRecord) (now : Nat) :
    ((attrPairs r now).map Prod.fst).Sublist attrKeyOrder := by
  show ((attrPairs r now).map Prod.fst).Sublist
    ((((((((["$Version"] ++ ["Comment"]) ++ ["Domain"]) ++ ["Path"]) ++ ["Priority"])
      ++ ["Secure"]) ++ ["HttpOnly"]) ++ ["Max-Age", "Expires"]) ++ ["SameSite"])
  unfold attrPairs
  simp only [List.map_append]
  refine List.Sublist.append (List.Sublist.append (List.Sublist.append
    (List.Sublist.append (List.Sublist.append (List.Sublist.append
      (List.Sublist.append (List.Sublist.append ?_ ?_) ?_) ?_) ?_) ?_) ?_) ?_) ?_ <;>
    first
      | (split_ifs <;> simp)
      | (cases r.sameSite <;> simp [sameSiteSegs])

/-- C4 counterexample: with `maxAge = 0`, two calls on the very same record
made at different clock readings return different strings (the `Expires`
attribute tracks the clock), so the output does not depend on the field
values alone. -/
theorem serialize_clock_counterexample :
    serialize { name := "a", value := "b", maxAge := 0 } 0
      ≠ serialize { name := "a", value := "b", maxAge := 0 } 86400 := by
  decide

/-- C4 (amended): `serialize` depends only on the field values of the record
and the clock reading observed by the call: two calls on records with equal
field values and equal clock readings return equal strings, with no
dependence on any other hidden state. -/
theorem serialize_deterministic (r₁ r₂ : CookieRecord) (now : Nat)
    (h : r₁.version = r₂.version ∧ r₁.name = r₂.name ∧ r₁.value = r₂.value
      ∧ r₁.comment = r₂.comment ∧ r₁.domain = r₂.domain ∧ r₁.path = r₂.path
      ∧ r₁.priority = r₂.priority ∧ r₁.secure = r₂.secure ∧ r₁.maxAge = r₂.maxAge
      ∧ r₁.httpOnly = r₂.httpOnly ∧ r₁.sameSite = r₂.sameSite) :
    serialize r₁ now = serialize r₂ now := by
  have heq : r₁ = r₂ := by
    obtain ⟨h1, h2, h3, h4, h5, h6, h7, h8, h9, h10, h11⟩ := h
    cases r₁; cases r₂
    simp_all
  rw [heq]

/-- Witness for C4 (amended) at a concrete record and clock. -/
theorem serialize_deterministic_witness :
    serialize { name := "x" } 5 = serialize { name := "x" } 5 :=
  serialize_deterministic { name := "x" } { name := "x" } 5
    ⟨rfl, rfl, rfl, rfl, rfl, rfl, rfl, rfl, rfl, rfl, rfl⟩

/-- C5: if `maxAge ≥ 0` the output contains the segment `Max-Age=<maxAge>`
and the segment `Expires=<HTTP-date>` for `now + maxAge` seconds; if
`maxAge = -1` it contains neither a `Max-Age` nor an `Expires` segment. -/
theorem maxAge_expires_emission (r : CookieRecord) (now : Nat) :
    (0 ≤ r.maxAge →
        ("Max-Age", some (intDec r.maxAge)) ∈ attrPairs r now
          ∧ ("Expires", some (httpDate (now + r.maxAge.toNat))) ∈ attrPairs r now)
    ∧ (r.maxAge = -1 →
        ∀ p ∈ attrPairs r now, p.1 ≠ "Max-Age" ∧ p.1 ≠ "Expires") := by
  constructor
  · intro hge
    refine ⟨(attrPairs_mem_iff r now ("Max-Age", some (intDec r.maxAge))).mpr ?_,
      (attrPairs_mem_iff r now
        ("Expires", some (httpDate (now + r.maxAge.toNat)))).mpr ?_⟩
    · exact Or.inr (Or.inr (Or.inr (Or.inr (Or.inr (Or.inr
        (Or.inr (Or.inl ⟨hge, Or.inl rfl⟩)))))))
    · exact Or.inr (Or.inr (Or.inr (Or.inr (Or.inr (Or.inr
        (Or.inr (Or.inl ⟨hge, Or.inr rfl⟩)))))))
  · intro hma p hp
    rw [attrPairs_mem_iff] at hp
    rcases hp with ⟨_, rfl⟩ | ⟨_, _, rfl⟩ | ⟨_, rfl⟩ | ⟨_, rfl⟩ | ⟨_, rfl⟩
      | ⟨_, rfl⟩ | ⟨_, rfl⟩ | ⟨hge, _⟩ | ⟨_, rfl⟩ | ⟨_, rfl⟩ | ⟨_, rfl⟩
    · exact ⟨by simp, by simp⟩
    · exact ⟨by simp, by simp⟩
    · exact ⟨by simp, by simp⟩
    · exact ⟨by simp, by simp⟩
    · exact ⟨by simp, by simp⟩
    · exact ⟨by simp, by simp⟩
    · exact ⟨by simp, by simp⟩
    · omega
    · exact ⟨by simp, by simp⟩
    · exact ⟨by simp, by simp⟩
    · exact ⟨by simp, by simp⟩

/-- Witness for C5: emission at `maxAge = 10`, absence at the default
`maxAge = -1`. -/
theorem maxAge_expires_emission_witness :
    (0 : Int) ≤ 10
      ∧ ("Max-Age", some (intDec 10)) ∈ attrPairs { maxAge := 10 } 0
      ∧ (("Secure", Option.none) : String × Option String).1 ≠ "Max-Age" :=
  ⟨by decide,
    ((maxAge_expires_emission { maxAge := 10 } 0).1 (by decide)).1,
    (((maxAge_expires_emission { secure := true } 0).2 rfl)
      ("Secure", Option.none) (by decide)).1⟩

/-- C6: `serialize` emits `name=value` first, then the optional segments in
the fixed §4.3 order (their keys form a sublist of `attrKeyOrder`), no
attribute key appears twice; the scenario record
`{name="sid", value="abc123", secure, httpOnly, sameSite=Lax}` serializes to
exactly `"sid=abc123; Secure; HttpOnly; SameSite=Lax"` at every clock
reading. -/
theorem serialize_segment_order :
    (∀ (r : CookieRecord) (now : Nat),
        serialize r now
            = String.intercalate "; "
                ((r.name ++ "=" ++ r.value) :: (attrPairs r now).map renderSeg)
          ∧ ((attrPairs r now).map Prod.fst).Sublist attrKeyOrder
          ∧ ((attrPairs r now).map Prod.fst).Nodup)
    ∧ (∀ now : Nat,
        serialize { name := "sid", value := "abc123", secure := true,
                    httpOnly := true, sameSite := SameSite.lax } now
          = "sid=abc123; Secure; HttpOnly; SameSite=Lax") := by
  constructor
  · intro r now
    refine ⟨rfl, attrPairs_keys_sublist r now, ?_⟩
    exact (attrPairs_keys_sublist r now).nodup (by decide)
  · intro now
    rfl

/-- C7: a `Comment` segment is emitted if and only if the comment is
non-empty and the version is 1; when emitted it carries the comment text. -/
theorem comment_version1_only (r : CookieRecord) (now : Nat) :
    ((∃ v, ("Comment", v) ∈ attrPairs r now) ↔ (r.comment ≠ "" ∧ r.version = 1))
    ∧ ((r.comment ≠ "" ∧ r.version = 1) →
        ("Comment", some r.comment) ∈ attrPairs r now) := by
  have hmem : (r.comment ≠ "" ∧ r.version = 1) →
      ("Comment", some r.comment) ∈ attrPairs r now := by
    intro h
    exact (attrPairs_mem_iff r now _).mpr (Or.inr (Or.inl ⟨h.1, h.2, rfl⟩))
  refine ⟨⟨?_, fun h => ⟨some r.comment, hmem h⟩⟩, hmem⟩
  rintro ⟨v, hv⟩
  rw [attrPairs_mem_iff] at hv
  rcases hv with ⟨_, h⟩ | ⟨hc, h1, _⟩ | ⟨_, h⟩ | ⟨_, h⟩ | ⟨_, h⟩
    | ⟨_, h⟩ | ⟨_, h⟩ | ⟨_, h | h⟩ | ⟨_, h⟩ | ⟨_, h⟩ | ⟨_, h⟩
  · simp at h
  · exact ⟨hc, h1⟩
  all_goals simp at h

/-- Witness for C7 at a version-1 record with comment `"c"`. -/
theorem comment_version1_only_witness :
    ("Comment", some ("c" : String))
      ∈ attrPairs { comment := "c", version := 1 } 0 :=
  (comment_version1_only { comment := "c", version := 1 } 0).2 ⟨by decide, rfl⟩

/-- C8: `setVersion` fails with `InvalidVersion` exactly when its argument is
outside {0,1}; on 0 and 1 it succeeds and stores the argument as the
version. -/
theorem setVersion_validation (r : CookieRecord) (v : Int) :
    (setVersion v r = Except.error CookieError.invalidVersion ↔ (v ≠ 0 ∧ v ≠ 1))
    ∧ ((v = 0 ∨ v = 1) → setVersion v r = Except.ok { r with version := v }) := by
  by_cases hv : v = 0 ∨ v = 1
  · refine ⟨⟨fun h => ?_, fun h => ?_⟩, fun _ => by simp [setVersion, hv]⟩
    · simp [setVersion, hv] at h
    · rcases hv with h0 | h1 <;> simp_all
  · have hne : v ≠ 0 ∧ v ≠ 1 := ⟨fun e => hv (Or.inl e), fun e => hv (Or.inr e)⟩
    exact ⟨⟨fun _ => hne, fun _ => by simp [setVersion, hv]⟩, fun h => absurd h hv⟩

/-- Witness for C8: version 2 is rejected, version 1 is stored. -/
theorem setVersion_validation_witness :
    setVersion 2 mkCookie = Except.error CookieError.invalidVersion
      ∧ setVersion 1 mkCookie = Except.ok { mkCookie with version := 1 } :=
  ⟨(setVersion_validation mkCookie 2).1.mpr (by decide),
    (setVersion_validation mkCookie 1).2 (Or.inr rfl)⟩

/-- The version invariant of §3: the stored version is 0 or 1. -/
def versionOK (r : CookieRecord) : Prop :=
  r.version = 0 ∨ r.version = 1

lemma versionOK_setVersion_ok {v : Int} {r r' : CookieRecord}
    (h : setVersion v r = Except.ok r') : versionOK r' := by
  unfold setVersion at h
  split_ifs at h with hv
  cases h
  rcases hv with h0 | h1
  · exact Or.inl (by simp [h0])
  · exact Or.inr (by simp [h1])

set_option maxHeartbeats 1600000 in
lemma versionOK_applyAttr (r : CookieRecord) (p : String × String)
    (h : versionOK r) : versionOK (applyAttr r p) := by
  unfold applyAttr
  split_ifs
  all_goals try exact h
  · cases hx : p.2.toInt? <;> exact h
  · cases hx : setVersion ((p.2.toInt?).getD 0) r with
    | error e => exact h
    | ok r' => exact versionOK_setVersion_ok hx

lemma versionOK_foldl (m : List (String × String)) (r : CookieRecord)
    (h : versionOK r) : versionOK (m.foldl applyAttr r) := by
  induction m generalizing r with
  | nil => exact h
  | cons p rest ih => exact ih _ (versionOK_applyAttr r p h)

/-- C9: every constructor yields version 0 (mapping construction keeps the
version in {0,1}), and every setter — including a failed `setVersion` —
keeps the version in {0,1}. -/
theorem version_invariant :
    (mkCookie.version = 0
      ∧ (∀ n, (mkCookieNamed n).version = 0)
      ∧ (∀ n v, (mkCookieNameValue n v).version = 0)
      ∧ (∀ m, versionOK (fromMap m)))
    ∧ (∀ r, versionOK r →
        (∀ s, versionOK (setName s r)) ∧ (∀ s, versionOK (setValue s r))
          ∧ (∀ s, versionOK (setComment s r)) ∧ (∀ s, versionOK (setDomain s r))
          ∧ (∀ s, versionOK (setPath s r)) ∧ (∀ s, versionOK (setPriority s r))
          ∧ (∀ b, versionOK (setSecure b r)) ∧ (∀ n, versionOK (setMaxAge n r))
          ∧ (∀ b, versionOK (setHttpOnly b r)) ∧ (∀ v, versionOK (setSameSite v r))
          ∧ (∀ v r', setVersion v r = Except.ok r' → versionOK r')
          ∧ (∀ v e, setVersion v r = Except.error e → versionOK r)) := by
  refine ⟨⟨rfl, fun n => rfl, fun n v => rfl, fun m => versionOK_foldl m mkCookie (Or.inl rfl)⟩,
    fun r h => ⟨fun s => h, fun s => h, fun s => h, fun s => h, fun s => h, fun s => h,
      fun b => h, fun n => h, fun b => h, fun v => h,
      fun v r' hr => versionOK_setVersion_ok hr, fun v e _ => h⟩⟩

/-- Witness for C9 at a concrete record and map. -/
theorem version_invariant_witness :
    versionOK mkCookie ∧ versionOK (setSecure true mkCookie) :=
  ⟨Or.inl rfl,
    ((version_invariant.2 mkCookie (Or.inl rfl)).2.2.2.2.2.2.1) true⟩

/-- C10: every setter changes only the field it names: all other fields, as
observed through the getters, are unchanged (for `setVersion`, on the
successful outcome). -/
theorem setter_frame (r : CookieRecord) (s : String) (b : Bool) (n : Int)
    (ss : SameSite) :
    ((setName s r).name = s ∧ (setName s r).version = r.version
      ∧ (setName s r).value = r.value ∧ (setName s r).comment = r.comment
      ∧ (setName s r).domain = r.domain ∧ (setName s r).path = r.path
      ∧ (setName s r).priority = r.priority ∧ (setName s r).secure = r.secure
      ∧ (setName s r).maxAge = r.maxAge ∧ (setName s r).httpOnly = r.httpOnly
      ∧ (setName s r).sameSite = r.sameSite)
    ∧ ((setValue s r).value = s ∧ (setValue s r).version = r.version
      ∧ (setValue s r).name = r.name ∧ (setValue s r).comment = r.comment
      ∧ (setValue s r).domain = r.domain ∧ (setValue s r).path = r.path
      ∧ (setValue s r).priority = r.priority ∧ (setValue s r).secure = r.secure
      ∧ (setValue s r).maxAge = r.maxAge ∧ (setValue s r).httpOnly = r.httpOnly
      ∧ (setValue s r).sameSite = r.sameSite)
    ∧ ((setComment s r).comment = s ∧ (setComment s r).version = r.version
      ∧ (setComment s r).name = r.name ∧ (setComment s r).value = r.value
      ∧ (setComment s r).domain = r.domain ∧ (setComment s r).path = r.path
      ∧ (setComment s r).priority = r.priority ∧ (setComment s r).secure = r.secure
      ∧ (setComment s r).maxAge = r.maxAge ∧ (setComment s r).httpOnly = r.httpOnly
      ∧ (setComment s r).sameSite = r.sameSite)
    ∧ ((setDomain s r).domain = s ∧ (setDomain s r).version = r.version
      ∧ (setDomain s r).name = r.name ∧ (setDomain s r).value = r.value
      ∧ (setDomain s r).comment = r.comment ∧ (setDomain s r).path = r.path
      ∧ (setDomain s r).priority = r.priority ∧ (setDomain s r).secure = r.secure
      ∧ (setDomain s r).maxAge = r.maxAge ∧ (setDomain s r).httpOnly = r.httpOnly
      ∧ (setDomain s r).sameSite = r.sameSite)
    ∧ ((setPath s r).path = s ∧ (setPath s r).version = r.version
      ∧ (setPath s r).name = r.name ∧ (setPath s r).value = r.value
      ∧ (setPath s r).comment = r.comment ∧ (setPath s r).domain = r.domain
      ∧ (setPath s r).priority = r.priority ∧ (setPath s r).secure = r.secure
      ∧ (setPath s r).maxAge = r.maxAge ∧ (setPath s r).httpOnly = r.httpOnly
      ∧ (setPath s r).sameSite = r.sameSite)
    ∧ ((setPriority s r).priority = s ∧ (setPriority s r).version = r.version
      ∧ (setPriority s r).name = r.name ∧ (setPriority s r).value = r.value
      ∧ (setPriority s r).comment = r.comment ∧ (setPriority s r).domain = r.domain
      ∧ (setPriority s r).path = r.path ∧ (setPriority s r).secure = r.secure
      ∧ (setPriority s r).maxAge = r.maxAge ∧ (setPriority s r).httpOnly = r.httpOnly
      ∧ (setPriority s r).sameSite = r.sameSite)
    ∧ ((setSecure b r).secure = b ∧ (setSecure b r).version = r.version
      ∧ (setSecure b r).name = r.name ∧ (setSecure b r).value = r.value
      ∧ (setSecure b r).comment = r.comment ∧ (setSecure b r).domain = r.domain
      ∧ (setSecure b r).path = r.path ∧ (setSecure b r).priority = r.priority
      ∧ (setSecure b r).maxAge = r.maxAge ∧ (setSecure b r).httpOnly = r.httpOnly
      ∧ (setSecure b r).sameSite = r.sameSite)
    ∧ ((setMaxAge n r).maxAge = n ∧ (setMaxAge n r).version = r.version
      ∧ (setMaxAge n r).name = r.name ∧ (setMaxAge n r).value = r.value
      ∧ (setMaxAge n r).comment = r.comment ∧ (setMaxAge n r).domain = r.domain
      ∧ (setMaxAge n r).path = r.path ∧ (setMaxAge n r).priority = r.priority
      ∧ (setMaxAge n r).secure = r.secure ∧ (setMaxAge n r).httpOnly = r.httpOnly
      ∧ (setMaxAge n r).sameSite = r.sameSite)
    ∧ ((setHttpOnly b r).httpOnly = b ∧ (setHttpOnly b r).version = r.version
      ∧ (setHttpOnly b r).name = r.name ∧ (setHttpOnly b r).value = r.value
      ∧ (setHttpOnly b r).comment = r.comment ∧ (setHttpOnly b r).domain = r.domain
      ∧ (setHttpOnly b r).path = r.path ∧ (setHttpOnly b r).priority = r.priority
      ∧ (setHttpOnly b r).secure = r.secure ∧ (setHttpOnly b r).maxAge = r.maxAge
      ∧ (setHttpOnly b r).sameSite = r.sameSite)
    ∧ ((setSameSite ss r).sameSite = ss ∧ (setSameSite ss r).version = r.version
      ∧ (setSameSite ss r).name = r.name ∧ (setSameSite ss r).value = r.value
      ∧ (setSameSite ss r).comment = r.comment ∧ (setSameSite ss r).domain = r.domain
      ∧ (setSameSite ss r).path = r.path ∧ (setSameSite ss r).priority = r.priority
      ∧ (setSameSite ss r).secure = r.secure ∧ (setSameSite ss r).maxAge = r.maxAge
      ∧ (setSameSite ss r).httpOnly = r.httpOnly)
    ∧ (∀ (v : Int) (r' : CookieRecord), setVersion v r = Except.ok r' →
        r'.version = v ∧ r'.name = r.name ∧ r'.value = r.value
          ∧ r'.comment = r.comment ∧ r'.domain = r.domain ∧ r'.path = r.path
          ∧ r'.priority = r.priority ∧ r'.secure = r.secure
          ∧ r'.maxAge = r.maxAge ∧ r'.httpOnly = r.httpOnly
          ∧ r'.sameSite = r.sameSite) := by
  refine ⟨⟨rfl, rfl, rfl, rfl, rfl, rfl, rfl, rfl, rfl, rfl, rfl⟩,
    ⟨rfl, rfl, rfl, rfl, rfl, rfl, rfl, rfl, rfl, rfl, rfl⟩,
    ⟨rfl, rfl, rfl, rfl, rfl, rfl, rfl, rfl, rfl, rfl, rfl⟩,
    ⟨rfl, rfl, rfl, rfl, rfl, rfl, rfl, rfl, rfl, rfl, rfl⟩,
    ⟨rfl, rfl, rfl, rfl, rfl, rfl, rfl, rfl, rfl, rfl, rfl⟩,
    ⟨rfl, rfl, rfl, rfl, rfl, rfl, rfl, rfl, rfl, rfl, rfl⟩,
    ⟨rfl, rfl, rfl, rfl, rfl, rfl, rfl, rfl, rfl, rfl, rfl⟩,
    ⟨rfl, rfl, rfl, rfl, rfl, rfl, rfl, rfl, rfl, rfl, rfl⟩,
    ⟨rfl, rfl, rfl, rfl, rfl, rfl, rfl, rfl, rfl, rfl, rfl⟩,
    ⟨rfl, rfl, rfl, rfl, rfl, rfl, rfl, rfl, rfl, rfl, rfl⟩, ?_⟩
  intro v r' h
  unfold setVersion at h
  split_ifs at h with hv
  cases h
  exact ⟨rfl, rfl, rfl, rfl, rfl, rfl, rfl, rfl, rfl, rfl, rfl⟩

/-- Witness for C10: `setVersion 1` on the default record changes only the
version. -/
theorem setter_frame_witness :
    ({ mkCookie with version := 1 } : CookieRecord).version = 1
      ∧ ({ mkCookie with version := 1 } : CookieRecord).name = mkCookie.name
      ∧ ({ mkCookie with version := 1 } : CookieRecord).value = mkCookie.value
      ∧ ({ mkCookie with version := 1 } : CookieRecord).comment = mkCookie.comment
      ∧ ({ mkCookie with version := 1 } : CookieRecord).domain = mkCookie.domain
      ∧ ({ mkCookie with version := 1 } : CookieRecord).path = mkCookie.path
      ∧ ({ mkCookie with version := 1 } : CookieRecord).priority = mkCookie.priority
      ∧ ({ mkCookie with version := 1 } : CookieRecord).secure = mkCookie.secure
      ∧ ({ mkCookie with version := 1 } : CookieRecord).maxAge = mkCookie.maxAge
      ∧ ({ mkCookie with version := 1 } : CookieRecord).httpOnly = mkCookie.httpOnly
      ∧ ({ mkCookie with version := 1 } : CookieRecord).sameSite = mkCookie.sameSite :=
  (setter_frame mkCookie "" false 0 SameSite.notSpecified).2.2.2.2.2.2.2.2.2.2
    1 { mkCookie with version := 1 } rfl

end Cookie
